import Mathlib

/-!
A shallow embedding of `src/frontend.ts` (the ZkPassport SDK frontend) in Lean 4,
with theorems checking the natural-language specification against the code.

Modelling conventions:
* JavaScript plain objects used as string-keyed records (`Record<string, T>`)
  are modelled as association lists `List (String × T)` with JS semantics:
  property read returns the first binding, property assignment updates an
  existing key in place (keeping its position) or appends a new one, and
  `delete` removes the binding.  JS objects have unique keys, which all the
  operations below preserve.
* A JS `TypeError` thrown by reading a property of `undefined` is modelled by
  an `Option` result (`none` = the call throws).
* `Uint8Array` values are modelled as `List Nat` (byte lists).
* The external encryption module (`./encryption`, not part of the analysed
  source) is a parameter record `Crypto`, per the spec's EncryptionGateway
  contract (§6): deterministic operations with clean failure (`Option`).
-/

set_option autoImplicit false

namespace ZkPassport

/-- A JSON-ish value, covering every predicate value the builder stores:
strings, numbers (`number | Date` modelled as integers) and arrays. -/
inductive Jv where
  | str (s : String)
  | num (n : Int)
  | arr (xs : List Jv)
deriving Repr

/-- JS property read `o[k]`: first binding for `k`, `none` = `undefined`. -/
def objGet? {α : Type} : List (String × α) → String → Option α
  | [], _ => none
  | p :: rest, k => if p.1 = k then some p.2 else objGet? rest k

/-- JS property assignment `o[k] = v`: updates the existing binding in place
(keeping its position) or appends a fresh one. -/
def objSet {α : Type} : List (String × α) → String → α → List (String × α)
  | [], k, v => [(k, v)]
  | p :: rest, k, v => if p.1 = k then (k, v) :: rest else p :: objSet rest k v

/-- JS `delete o[k]`. -/
def objDelete {α : Type} : List (String × α) → String → List (String × α)
  | [], _ => []
  | p :: rest, k => if p.1 = k then objDelete rest k else p :: objDelete rest k

/-! ### String helpers: hex, UTF-8, base64, JSON serialization

These model the platform builtins the source relies on:
`bytesToHex` from `@noble/ciphers/utils` (lowercase, two digits per byte),
`Buffer.from(s).toString('base64')` (standard base64 over the UTF-8 bytes),
and `JSON.stringify` on the configuration record. -/

/-- Lowercase hexadecimal digit. -/
def hexDigit (n : Nat) : Char :=
  if n < 10 then Char.ofNat (48 + n) else Char.ofNat (87 + n)

/-- One byte as two lowercase hex digits, as `@noble/ciphers`' `bytesToHex`. -/
def byteToHex (b : Nat) : String :=
  String.mk [hexDigit (b / 16), hexDigit (b % 16)]

/-- Hex rendering of a byte list, as `bytesToHex` from `@noble/ciphers/utils`. -/
def bytesToHex (bs : List Nat) : String :=
  String.join (bs.map byteToHex)

/-- UTF-8 encoding of one character (standard four-branch encoder). -/
def utf8EncodeChar (c : Char) : List Nat :=
  let n := c.toNat
  if n < 128 then [n]
  else if n < 2048 then [192 + n / 64, 128 + n % 64]
  else if n < 65536 then [224 + n / 4096, 128 + (n / 64) % 64, 128 + n % 64]
  else [240 + n / 262144, 128 + (n / 4096) % 64, 128 + (n / 64) % 64, 128 + n % 64]

/-- UTF-8 bytes of a string. -/
def utf8Encode (s : String) : List Nat :=
  s.data.foldr (fun c acc => utf8EncodeChar c ++ acc) []

/-- The base64 alphabet, by index. -/
def base64Char (n : Nat) : Char :=
  if n < 26 then Char.ofNat (65 + n)
  else if n < 52 then Char.ofNat (97 + (n - 26))
  else if n < 62 then Char.ofNat (48 + (n - 52))
  else if n = 62 then Char.ofNat 43
  else Char.ofNat 47

/-- Standard base64 of a byte list, with `=` padding. -/
def base64EncodeList : List Nat → List Char
  | [] => []
  | [a] => [base64Char (a / 4), base64Char (a % 4 * 16), Char.ofNat 61, Char.ofNat 61]
  | [a, b] => [base64Char (a / 4), base64Char (a % 4 * 16 + b / 16),
      base64Char (b % 16 * 4), Char.ofNat 61]
  | a :: b :: c :: rest =>
      base64Char (a / 4) :: base64Char (a % 4 * 16 + b / 16) ::
        base64Char (b % 16 * 4 + c / 64) :: base64Char (c % 64) :: base64EncodeList rest

/-- Base64 of a string, as `Buffer.from(s).toString('base64')`. -/
def base64OfString (s : String) : String :=
  String.mk (base64EncodeList (utf8Encode s))

def quoteChar : Char := Char.ofNat 34

def backslashChar : Char := Char.ofNat 92

/-- JSON string escaping of one character, as `JSON.stringify` does it. -/
def jsonEscapeChar (c : Char) : List Char :=
  if c = quoteChar then [backslashChar, quoteChar]
  else if c = backslashChar then [backslashChar, backslashChar]
  else if c.toNat = 8 then [backslashChar, Char.ofNat 98]
  else if c.toNat = 9 then [backslashChar, Char.ofNat 116]
  else if c.toNat = 10 then [backslashChar, Char.ofNat 110]
  else if c.toNat = 12 then [backslashChar, Char.ofNat 102]
  else if c.toNat = 13 then [backslashChar, Char.ofNat 114]
  else if c.toNat < 32 then
    [backslashChar, Char.ofNat 117, Char.ofNat 48, Char.ofNat 48,
      hexDigit (c.toNat / 16), hexDigit (c.toNat % 16)]
  else [c]

/-- A JSON string literal: quoted and escaped. -/
def jsonString (s : String) : String :=
  String.singleton quoteChar
    ++ String.mk (s.data.foldr (fun c acc => jsonEscapeChar c ++ acc) [])
    ++ String.singleton quoteChar

/-- The `JSON.stringify` rendering of a `Jv` value. -/
def jsonJv : Jv → String
  | .str s => jsonString s
  | .num n => toString n
  | .arr xs => "[" ++ String.intercalate "," (jsonJvList xs) ++ "]"
where
  jsonJvList : List Jv → List String
    | [] => []
    | v :: rest => jsonJv v :: jsonJvList rest

/-- One credential's `IDCredentialConfig` object: predicate-name keyed record
(`eq`, `in`, `out`, `gte`, `gt`, `lte`, `lt`, `range`). -/
abbrev Entry := List (String × Jv)

/-- A session's `Record<string, IDCredentialConfig>`: credential-name keyed. -/
abbrev Config := List (String × Entry)

/-- The `topicToConfig` record: topic keyed. -/
abbrev ConfigMap := List (String × Config)

/-- The `JSON.stringify` rendering of one `IDCredentialConfig` object. -/
def jsonEntry (e : Entry) : String :=
  "\x7b" ++ String.intercalate "," (e.map fun p => jsonString p.1 ++ ":" ++ jsonJv p.2) ++ "\x7d"

/-- The `JSON.stringify` rendering of a session's configuration record. -/
def jsonConfig (c : Config) : String :=
  "\x7b" ++ String.intercalate "," (c.map fun p => jsonString p.1 ++ ":" ++ jsonEntry p.2) ++ "\x7d"

/-! ### The builder's write helpers (source lines 16–52)

Each one performs
`requestIdToConfig[requestId][key] = { ...requestIdToConfig[requestId][key], [fnName]: value }`.
Reading `requestIdToConfig[requestId]` when the topic is unregistered throws a
`TypeError` (modelled as `none`); reading the inner `[key]` when the credential
key is absent yields `undefined`, and spreading `undefined` yields the empty
object (modelled by `getD []`). -/

/-- Source `numericalCompare` (lines 16–27); `fnName` ranges over
`gte | gt | lte | lt`, which TypeScript enforces at the call sites. -/
def numericalCompare (fnName : String) (key : String) (value : Jv) (requestId : String)
    (requestIdToConfig : ConfigMap) : Option ConfigMap :=
  match objGet? requestIdToConfig requestId with
  | none => none
  | some cfg =>
    some (objSet requestIdToConfig requestId
      (objSet cfg key (objSet ((objGet? cfg key).getD []) fnName value)))

/-- Source `rangeCompare` (lines 29–39): writes the pair under the fixed key
`range` (stored as a two-element JS array). -/
def rangeCompare (key : String) (value : Jv × Jv) (requestId : String)
    (requestIdToConfig : ConfigMap) : Option ConfigMap :=
  match objGet? requestIdToConfig requestId with
  | none => none
  | some cfg =>
    some (objSet requestIdToConfig requestId
      (objSet cfg key (objSet ((objGet? cfg key).getD []) "range" (.arr [value.1, value.2]))))

/-- Source `generalCompare` (lines 41–52); `fnName` ranges over `in | out | eq`. -/
def generalCompare (fnName : String) (key : String) (value : Jv) (requestId : String)
    (requestIdToConfig : ConfigMap) : Option ConfigMap :=
  match objGet? requestIdToConfig requestId with
  | none => none
  | some cfg =>
    some (objSet requestIdToConfig requestId
      (objSet cfg key (objSet ((objGet? cfg key).getD []) fnName value)))

/-- One builder predicate application, with the value shape each chainable
method of `getZkPassportRequest` passes to the write helpers (source lines
94–125): `eq` takes a single value, `in`/`out` take arrays, the four numeric
comparisons take a single value, `range` takes two endpoints. -/
inductive PredApp where
  | eqP (v : Jv)
  | inP (v : List Jv)
  | outP (v : List Jv)
  | gteP (v : Jv)
  | gtP (v : Jv)
  | lteP (v : Jv)
  | ltP (v : Jv)
  | rangeP (v : Jv × Jv)

/-- The property name a predicate application writes under. -/
def PredApp.kindKey : PredApp → String
  | .eqP _ => "eq"
  | .inP _ => "in"
  | .outP _ => "out"
  | .gteP _ => "gte"
  | .gtP _ => "gt"
  | .lteP _ => "lte"
  | .ltP _ => "lt"
  | .rangeP _ => "range"

/-- The stored JS value of a predicate application. -/
def PredApp.storedValue : PredApp → Jv
  | .eqP v => v
  | .inP v => .arr v
  | .outP v => .arr v
  | .gteP v => v
  | .gtP v => v
  | .lteP v => v
  | .ltP v => v
  | .rangeP v => .arr [v.1, v.2]

/-- Dispatch of one builder call to the source's write helper, exactly as the
chainable methods of `getZkPassportRequest` do. -/
def PredApp.apply : PredApp → String → String → ConfigMap → Option ConfigMap
  | .eqP v, key, topic, m => generalCompare "eq" key v topic m
  | .inP v, key, topic, m => generalCompare "in" key (.arr v) topic m
  | .outP v, key, topic, m => generalCompare "out" key (.arr v) topic m
  | .gteP v, key, topic, m => numericalCompare "gte" key v topic m
  | .gtP v, key, topic, m => numericalCompare "gt" key v topic m
  | .lteP v, key, topic, m => numericalCompare "lte" key v topic m
  | .ltP v, key, topic, m => numericalCompare "lt" key v topic m
  | .rangeP v, key, topic, m => rangeCompare key v topic m

/-- The predicate field `f` recorded for credential `key` of topic `topic`. -/
def entryField (m : ConfigMap) (topic key f : String) : Option Jv :=
  match objGet? m topic with
  | none => none
  | some cfg =>
    match objGet? cfg key with
    | none => none
    | some e => objGet? e f

/-- Projection `entryField` lifted to a possibly-thrown (`Option`) configuration map. -/
def entryFieldO (m? : Option ConfigMap) (topic key f : String) : Option Jv :=
  match m? with
  | none => none
  | some m => entryField m topic key f

/-! ### Session state (the private fields of class `ZkPassport`, lines 54–65) -/

/-- An ECDH key pair (`Uint8Array` halves as byte lists). -/
structure KeyPair where
  privateKey : List Nat
  publicKey : List Nat
deriving Repr, DecidableEq

/-- One entry of `topicToWebSocketClient`.  The real client is an opaque
connection handle; we keep its URL and the `keyPair` local variable captured
by the `message` listener that `request()` attaches to this client
(source lines 156–169). -/
structure WSClient where
  url : String
  capturedKeyPair : KeyPair
deriving Repr, DecidableEq

/-- The mutable fields of a `ZkPassport` instance (source lines 55–65).
Callbacks are opaque identifiers (`Nat`); note the five callback arrays are
fields of the instance, not of any session. -/
structure State where
  domain : String
  topicToConfig : ConfigMap
  topicToKeyPair : List (String × KeyPair)
  topicToWebSocketClient : List (String × WSClient)
  topicToSharedSecret : List (String × List Nat)
  qrCodeScannedCallbacks : List Nat
  onGeneratingProofCallbacks : List Nat
  onProofGeneratedCallbacks : List Nat
  onRejectCallbacks : List Nat
  onErrorCallbacks : List Nat

/-- Constructor `new ZkPassport(domain)` (source lines 67–69). -/
def mkState (domain : String) : State :=
  { domain := domain
    topicToConfig := []
    topicToKeyPair := []
    topicToWebSocketClient := []
    topicToSharedSecret := []
    qrCodeScannedCallbacks := []
    onGeneratingProofCallbacks := []
    onProofGeneratedCallbacks := []
    onRejectCallbacks := []
    onErrorCallbacks := [] }

/-! ### External crypto and platform operations

Modelled from the spec: §6's EncryptionGateway contract (the source imports
`getSharedSecret` and `decrypt` from `./encryption`, which is not part of the
analysed source), plus the platform's `atob` and `JSON.parse` of the decrypted
payload.  Each operation is deterministic, and fallible operations return
`Option` ("decrypt fails cleanly with a distinguishable error"); `decrypt`
receives the stored shared secret as an `Option` because the source passes
`this.topicToSharedSecret[topic]`, which is `undefined` before any handshake. -/
/-- The inner JSON-RPC message carried by an `encryptedMessage` payload,
after decryption and `JSON.parse` (dispatched in `handleEncryptedMessage`,
source lines 76–90). -/
inductive InnerMsg where
  | accept
  | reject
  | done (proof : Jv)
  | error (err : Jv)
  | other (method : String)
deriving Repr

structure Crypto where
  getSharedSecret : String → String → Option (List Nat)
  decrypt : List Nat → Option (List Nat) → String → Option String
  atob : String → Option (List Nat)
  parseInnerJson : String → Option InnerMsg

/-- An inbound relay message, after the outer `JSON.parse` of `event.data`
(source lines 172–211). -/
inductive Msg where
  | handshake (pubkey : String)
  | encryptedMessage (payload : String)
  | other (method : String)
deriving Repr, DecidableEq

/-- One callback invocation observable from the outside: which registered
callback ran, with which argument. -/
inductive Event where
  | qrCodeScanned (cb : Nat)
  | generatingProof (cb : Nat) (topic : String)
  | proofGenerated (cb : Nat) (proof : Jv)
  | rejected (cb : Nat)
  | errored (cb : Nat) (err : Jv)

/-- Source `handleEncryptedMessage` (lines 76–90): dispatches on the inner
method, fires the matching instance-global callback array, and never writes
any state.  Unknown inner methods fall through silently. -/
def handleEncryptedMessage (st : State) (topic : String) (request : InnerMsg) : List Event :=
  match request with
  | .accept => st.onGeneratingProofCallbacks.map (fun cb => Event.generatingProof cb topic)
  | .reject => st.onRejectCallbacks.map Event.rejected
  | .done proof => st.onProofGeneratedCallbacks.map (fun cb => Event.proofGenerated cb proof)
  | .error err => st.onErrorCallbacks.map (fun cb => Event.errored cb err)
  | .other _ => []

/-- The `message` listener that `request()` attaches for `topic` (source lines
169–215), as a function of the instance state: returns the new state and the
callback invocations it fired.

* `handshake` (lines 175–192): derives the shared secret from the captured
  `keyPair.privateKey` and the peer's pubkey and stores it unconditionally
  under `topic`; the encrypted `hello` reply is a pure transport effect (not
  part of `State`); then fires every `qrCodeScannedCallbacks` entry.  A
  failing derivation rejects the `await` and is swallowed by the outer
  `try`/`catch` (log only).
* `encryptedMessage` (lines 195–211): `atob` failure hits the outer catch;
  `decrypt`/`JSON.parse` failure hits the inner catch (lines 207–209); all
  are log-only, leaving the state unchanged and firing nothing.
* Any other outer method falls through both `if` blocks with no effect. -/
def listener (c : Crypto) (st : State) (topic : String) (keyPair : KeyPair) :
    Msg → State × List Event
  | .handshake pubkey =>
    match c.getSharedSecret (bytesToHex keyPair.privateKey) pubkey with
    | none => (st, [])
    | some secret =>
      let st' := { st with topicToSharedSecret := objSet st.topicToSharedSecret topic secret }
      (st', st'.qrCodeScannedCallbacks.map Event.qrCodeScanned)
  | .encryptedMessage payload =>
    match c.atob payload with
    | none => (st, [])
    | some bytes =>
      match c.decrypt bytes (objGet? st.topicToSharedSecret topic) topic with
      | none => (st, [])
      | some plaintext =>
        match c.parseInnerJson plaintext with
        | none => (st, [])
        | some inner => (st, handleEncryptedMessage st topic inner)
  | .other _ => (st, [])

/-- Modelled from the spec: the WebSocket transport (`./websocket`, not part
of the analysed source) delivers a `message` event for `topic` only to a
client registered for that topic; a topic whose client was closed and removed
receives nothing (§5: after `cancelRequest` "any in-flight message for that
topic is treated as 'unknown topic' and dropped").  A delivered message runs
the listener attached by `request()`, with the `keyPair` that listener
captured. -/
def deliver (c : Crypto) (st : State) (topic : String) (msg : Msg) : State × List Event :=
  match objGet? st.topicToWebSocketClient topic with
  | none => (st, [])
  | some ws => listener c st topic ws.capturedKeyPair msg

/-- Source `request()` (lines 149–220): picks the topic and key pair (the
caller's overrides, or the generated values `genTopic`/`genKeyPair` standing
for `randomBytes(16).toString('hex')` and `generateECDHKeyPair()`), stores
the key pair, resets the topic's config to the empty object, opens and stores
a WebSocket client for the topic (whose listener captures `keyPair`), and
returns the builder, which is determined by the topic.  There is no check
against an already-registered topic. -/
def request (st : State) (topicOverride : Option String) (keyPairOverride : Option KeyPair)
    (genTopic : String) (genKeyPair : KeyPair) : State × String :=
  let keyPair := keyPairOverride.getD genKeyPair
  let topic := topicOverride.getD genTopic
  let st₁ := { st with topicToKeyPair := objSet st.topicToKeyPair topic keyPair }
  let st₂ := { st₁ with topicToConfig := objSet st₁.topicToConfig topic [] }
  let ws : WSClient :=
    { url := "wss://bridge.zkpassport.id?topic=" ++ topic, capturedKeyPair := keyPair }
  let st₃ := { st₂ with
    topicToWebSocketClient := objSet st₂.topicToWebSocketClient topic ws }
  (st₃, topic)

/-- Source `checkAML` (lines 126–128): returns the builder and writes nothing;
the optional country argument is ignored. -/
def checkAML (st : State) (_topic : String) (_country : Option String) : State :=
  st

/-- The `url` field assembled by the builder's `done()` (source lines
129–141): base64 of `JSON.stringify(this.topicToConfig[topic])` and
`bytesToHex(this.topicToKeyPair[topic].publicKey)`.  `none` models the
`TypeError` when the topic has no stored config or key pair. -/
def doneUrl (st : State) (topic : String) : Option String :=
  match objGet? st.topicToConfig topic with
  | none => none
  | some cfg =>
    match objGet? st.topicToKeyPair topic with
    | none => none
    | some kp =>
      some ("https://zkpassport.id/r?d=" ++ st.domain ++ "&t=" ++ topic ++ "&c="
        ++ base64OfString (jsonConfig cfg) ++ "&p=" ++ bytesToHex kp.publicKey)

/-- The five subscription functions of the descriptor `done()` returns
(source lines 135–139).  Each is created for the builder of one topic but
pushes onto the corresponding instance-global callback array; the `topic`
parameter records which session's descriptor the caller used and is ignored
by the code. -/
def registerOnQRCodeScanned (st : State) (_topic : String) (cb : Nat) : State :=
  { st with qrCodeScannedCallbacks := st.qrCodeScannedCallbacks ++ [cb] }

def registerOnGeneratingProof (st : State) (_topic : String) (cb : Nat) : State :=
  { st with onGeneratingProofCallbacks := st.onGeneratingProofCallbacks ++ [cb] }

def registerOnProofGenerated (st : State) (_topic : String) (cb : Nat) : State :=
  { st with onProofGeneratedCallbacks := st.onProofGeneratedCallbacks ++ [cb] }

def registerOnReject (st : State) (_topic : String) (cb : Nat) : State :=
  { st with onRejectCallbacks := st.onRejectCallbacks ++ [cb] }

def registerOnError (st : State) (_topic : String) (cb : Nat) : State :=
  { st with onErrorCallbacks := st.onErrorCallbacks ++ [cb] }

/-- Source `getUrl(requestId)` (lines 241–244).  The template literal
interpolates `this.topicToConfig[requestId]` — a plain object — directly, so
the `c` parameter is the string `[object Object]` (or `undefined` when the
topic has no config); only the key-pair read can throw. -/
def getUrl (st : State) (requestId : String) : Option String :=
  match objGet? st.topicToKeyPair requestId with
  | none => none
  | some kp =>
    some ("https://zkpassport.id/r?d=" ++ st.domain ++ "&t=" ++ requestId ++ "&c="
      ++ (match objGet? st.topicToConfig requestId with
          | none => "undefined"
          | some _ => "[object Object]")
      ++ "&p=" ++ bytesToHex kp.publicKey)

/-- Source `cancelRequest(requestId)` (lines 250–260):
`this.topicToWebSocketClient[requestId].close()` throws a `TypeError` when no
client is registered (modelled as `none`); otherwise it closes the client,
deletes the four per-topic entries, and resets four of the five callback
arrays — all but `onRejectCallbacks` — to fresh empty arrays. -/
def cancelRequest (st : State) (requestId : String) : Option State :=
  match objGet? st.topicToWebSocketClient requestId with
  | none => none
  | some _ =>
    some { st with
      topicToWebSocketClient := objDelete st.topicToWebSocketClient requestId
      topicToKeyPair := objDelete st.topicToKeyPair requestId
      topicToConfig := objDelete st.topicToConfig requestId
      topicToSharedSecret := objDelete st.topicToSharedSecret requestId
      qrCodeScannedCallbacks := []
      onGeneratingProofCallbacks := []
      onProofGeneratedCallbacks := []
      onErrorCallbacks := [] }

/-! ### Concrete fixtures for witnesses and counterexamples -/

def kpA : KeyPair := { privateKey := [1], publicKey := [2, 211] }

def kpB : KeyPair := { privateKey := [3], publicKey := [5, 6] }

def kpGen : KeyPair := { privateKey := [7], publicKey := [8] }

/-- A concrete EncryptionGateway instance satisfying the spec's contract
(deterministic, clean failure): the derived secret is the UTF-8 encoding of
the peer's public-key string (so distinct peers give distinct secrets, as for
ECDH), and decryption always fails cleanly. -/
def cryptoFix : Crypto :=
  { getSharedSecret := fun _priv pub => some (utf8Encode pub)
    decrypt := fun _ _ _ => none
    atob := fun _ => none
    parseInnerJson := fun _ => none }

/-- One live session `a` on a fresh instance. -/
def stA : State := (request (mkState "d") (some "a") (some kpA) "g" kpGen).1

/-- Two live sessions `a` and `b`. -/
def stAB : State := (request stA (some "b") (some kpB) "g" kpGen).1

/-- Callback `7` registered through session `a`'s descriptor. -/
def stC1 : State := registerOnQRCodeScanned stAB "a" 7

/-- Session `a` after a first handshake with peer pubkey `p1`. -/
def stHs1 : State := (listener cryptoFix stA "a" kpA (.handshake "p1")).1

/-- State `stHs1` after a second handshake for the same topic, with peer `p2`. -/
def stHs2 : State := (listener cryptoFix stHs1 "a" kpA (.handshake "p2")).1

/-- A live session `t` with one recorded predicate and an established shared
secret (the state a session reaches after building and handshaking). -/
def stC5pre : State :=
  { domain := "d"
    topicToConfig := [("t", [("age", [("gte", .num 18)])])]
    topicToKeyPair := [("t", kpA)]
    topicToWebSocketClient :=
      [("t", { url := "wss://bridge.zkpassport.id?topic=t", capturedKeyPair := kpA })]
    topicToSharedSecret := [("t", [9])]
    qrCodeScannedCallbacks := []
    onGeneratingProofCallbacks := []
    onProofGeneratedCallbacks := []
    onRejectCallbacks := []
    onErrorCallbacks := [] }

/-- State after `request()` is called again with the colliding `topicOverride` `t`. -/
def stC5post : State := (request stC5pre (some "t") (some kpB) "g2" kpGen).1

/-- Two sessions, a shared secret for `a`, and one callback of each of the
five kinds registered (all through session `a`'s descriptor). -/
def stC10 : State :=
  registerOnError
    (registerOnReject
      (registerOnProofGenerated
        (registerOnGeneratingProof
          (registerOnQRCodeScanned ((listener cryptoFix stAB "a" kpA (.handshake "p1")).1)
            "a" 1)
          "a" 2)
        "a" 3)
      "a" 4)
    "a" 5

/-- The state `cancelRequest(stC10, "a")` produces: session `b` untouched,
session `a`'s four entries gone, four callback arrays reset, `onReject` kept. -/
def stC10post : State :=
  { domain := "d"
    topicToConfig := [("b", [])]
    topicToKeyPair := [("b", kpB)]
    topicToWebSocketClient :=
      [("b", { url := "wss://bridge.zkpassport.id?topic=b", capturedKeyPair := kpB })]
    topicToSharedSecret := []
    qrCodeScannedCallbacks := []
    onGeneratingProofCallbacks := []
    onProofGeneratedCallbacks := []
    onRejectCallbacks := [4]
    onErrorCallbacks := [] }

/-! ## Theorems -/

theorem objGet_objSet_self {α : Type} (o : List (String × α)) (k : String) (v : α) :
    objGet? (objSet o k v) k = some v := by
  induction o with
  | nil => simp [objSet, objGet?]
  | cons p rest ih =>
    by_cases h : p.1 = k
    · simp [objSet, h, objGet?]
    · simp [objSet, h, objGet?, ih]

theorem objGet_objSet_ne {α : Type} (o : List (String × α)) (k k' : String) (v : α)
    (h : k' ≠ k) : objGet? (objSet o k v) k' = objGet? o k' := by
  have hk : ¬(k = k') := fun hh => h hh.symm
  induction o with
  | nil => simp [objSet, objGet?, hk]
  | cons p rest ih =>
    by_cases hp : p.1 = k
    · have hp' : ¬(p.1 = k') := by rw [hp]; exact hk
      simp [objSet, hp, objGet?, hk, hp']
    · by_cases hp' : p.1 = k'
      · simp [objSet, hp, objGet?, hp', h]
      · simp [objSet, hp, objGet?, hp', ih]

theorem objGet_objDelete_self {α : Type} (o : List (String × α)) (k : String) :
    objGet? (objDelete o k) k = none := by
  induction o with
  | nil => simp [objDelete, objGet?]
  | cons p rest ih =>
    by_cases h : p.1 = k
    · simp [objDelete, h, ih]
    · simp [objDelete, h, objGet?, ih]

theorem objGet_objDelete_ne {α : Type} (o : List (String × α)) (k k' : String)
    (h : k' ≠ k) : objGet? (objDelete o k) k' = objGet? o k' := by
  induction o with
  | nil => simp [objDelete]
  | cons p rest ih =>
    have hk : ¬(k = k') := fun hh => h hh.symm
    by_cases hp : p.1 = k
    · have hp' : ¬(p.1 = k') := by rw [hp]; exact hk
      simp [objDelete, hp, objGet?, hp', hk, ih]
    · by_cases hp' : p.1 = k'
      · simp [objDelete, hp, objGet?, hp', h]
      · simp [objDelete, hp, objGet?, hp', ih]

theorem objSet_objSet_same {α : Type} (o : List (String × α)) (k : String) (v₁ v₂ : α) :
    objSet (objSet o k v₁) k v₂ = objSet o k v₂ := by
  induction o with
  | nil => simp [objSet]
  | cons p rest ih =>
    by_cases h : p.1 = k
    · simp [objSet, h]
    · simp [objSet, h, ih]

/-- C4: the claim says `getUrl(topic)` equals the `url` of the descriptor
`done()` returns and that both carry the base64 of the JSON-serialized
configuration.  The code contradicts it: `getUrl` interpolates the
configuration object into a template literal, so its `c` query parameter is
the string `[object Object]`, while `done()`'s is the base64 of the JSON
snapshot (`e30=` for the empty configuration).  Evaluated here on a live
session `a` of a fresh instance. -/
theorem c4_getUrl_done_mismatch :
    getUrl stA "a" = some "https://zkpassport.id/r?d=d&t=a&c=[object Object]&p=02d3"
      ∧ doneUrl stA "a" = some "https://zkpassport.id/r?d=d&t=a&c=e30=&p=02d3"
      ∧ getUrl stA "a" ≠ doneUrl stA "a" :=
  ⟨rfl, rfl, by decide⟩

/-- C5 counterexample: `request()` called with `topicOverride = "t"` while a
live session `t` exists (key pair `kpA`, one recorded predicate) does not
fail — there is no collision check — and mutates the existing session's
state: the stored key pair becomes the new `kpB` and the configuration is
reset to the empty object. -/
theorem c5_counterexample :
    objGet? stC5pre.topicToKeyPair "t" = some kpA
      ∧ objGet? stC5post.topicToKeyPair "t" = some kpB
      ∧ kpA ≠ kpB
      ∧ objGet? stC5pre.topicToConfig "t" = some [("age", [("gte", .num 18)])]
      ∧ objGet? stC5post.topicToConfig "t" = some [] :=
  ⟨rfl, rfl, by decide, rfl, rfl⟩

/-- C5 (amended): `request()` with a caller-supplied topic never raises a
`ConfigurationError`; for any prior state it overwrites the topic's key pair,
resets the topic's configuration to the empty object, replaces the topic's
WebSocket client, leaves every stored shared secret in place, and leaves the
five callback arrays unchanged. -/
theorem c5_amended (st : State) (topic genTopic : String) (kp genKp : KeyPair) :
    objGet? ((request st (some topic) (some kp) genTopic genKp).1).topicToKeyPair topic = some kp
      ∧ objGet? ((request st (some topic) (some kp) genTopic genKp).1).topicToConfig topic
          = some []
      ∧ objGet? ((request st (some topic) (some kp) genTopic genKp).1).topicToWebSocketClient
            topic
          = some { url := "wss://bridge.zkpassport.id?topic=" ++ topic, capturedKeyPair := kp }
      ∧ ((request st (some topic) (some kp) genTopic genKp).1).topicToSharedSecret
          = st.topicToSharedSecret
      ∧ ((request st (some topic) (some kp) genTopic genKp).1).qrCodeScannedCallbacks
          = st.qrCodeScannedCallbacks
      ∧ ((request st (some topic) (some kp) genTopic genKp).1).onRejectCallbacks
          = st.onRejectCallbacks
      ∧ (request st (some topic) (some kp) genTopic genKp).2 = topic := by
  refine ⟨?_, ?_, ?_, rfl, rfl, rfl, rfl⟩
  · simp [request, objGet_objSet_self]
  · simp [request, objGet_objSet_self]
  · simp [request, objGet_objSet_self]

/-- C6 counterexample: `cancelRequest` on a topic that was never registered is
not a no-op: `this.topicToWebSocketClient[requestId].close()` reads `close`
off `undefined` and throws a `TypeError` (modelled by `none`). -/
theorem c6_counterexample : cancelRequest (mkState "d") "missing" = none := rfl

/-- C6 (amended): for every topic with no registered WebSocket client (never
created, or already cancelled), `cancelRequest(topic)` throws a `TypeError`
instead of returning normally; cancellation is not idempotent. -/
theorem c6_amended (st : State) (topic : String)
    (h : objGet? st.topicToWebSocketClient topic = none) :
    cancelRequest st topic = none := by
  simp [cancelRequest, h]

theorem c6_amended_witness : cancelRequest (mkState "x") "t" = none :=
  c6_amended (mkState "x") "t" rfl

/-- C8 counterexample: on a live session `a` with empty configuration,
`checkAML` with a country argument leaves the instance state — and therefore
the configuration and the snapshot `done()` serializes — completely
unchanged: no AML flag is recorded anywhere. -/
theorem c8_counterexample :
    checkAML stA "a" (some "USA") = stA
      ∧ objGet? stA.topicToConfig "a" = some []
      ∧ doneUrl (checkAML stA "a" (some "USA")) "a" = doneUrl stA "a" :=
  ⟨rfl, rfl, rfl⟩

/-- C8 (amended): `checkAML(country?)` records nothing: it returns the
builder and leaves the state unchanged, so the serialized configuration
snapshot produced by `done()` is unchanged and no comparison predicate is
added for any credential key. -/
theorem c8_amended (st : State) (topic : String) (country : Option String)
    (t' key f : String) :
    checkAML st topic country = st
      ∧ doneUrl (checkAML st topic country) t' = doneUrl st t'
      ∧ entryField (checkAML st topic country).topicToConfig t' key f
          = entryField st.topicToConfig t' key f :=
  ⟨rfl, rfl, rfl⟩

/-- C2 counterexample: after a first handshake for topic `a` with peer pubkey
`p1` has set the shared secret, processing a second handshake for the same
topic with peer pubkey `p2` overwrites the stored secret (the handshake
branch has no "already established" guard), under an EncryptionGateway
satisfying the spec's §6 contract. -/
theorem c2_counterexample :
    objGet? stHs1.topicToSharedSecret "a" = some (utf8Encode "p1")
      ∧ objGet? stHs2.topicToSharedSecret "a" = some (utf8Encode "p2")
      ∧ utf8Encode "p1" ≠ utf8Encode "p2" :=
  ⟨rfl, rfl, by decide⟩

/-- C2 (amended): every inbound handshake whose secret derivation succeeds —
whether or not a shared secret is already stored for the topic — stores the
secret derived from that message's peer pubkey, overwriting any previous
value (last handshake wins). -/
theorem c2_amended (c : Crypto) (st : State) (topic : String) (kp : KeyPair)
    (pubkey : String) (secret : List Nat)
    (h : c.getSharedSecret (bytesToHex kp.privateKey) pubkey = some secret) :
    objGet? ((listener c st topic kp (.handshake pubkey)).1).topicToSharedSecret topic
      = some secret := by
  simp [listener, h, objGet_objSet_self]

theorem c2_amended_witness :
    objGet? ((listener cryptoFix stHs1 "a" kpA (.handshake "p2")).1).topicToSharedSecret "a"
      = some (utf8Encode "p2") :=
  c2_amended cryptoFix stHs1 "a" kpA "p2" (utf8Encode "p2") rfl

/-- C7: when an inbound `encryptedMessage`'s payload fails to decode or
decrypt (tampered or truncated payload, or no shared secret stored yet —
`decrypt` then receives `none`), the listener catches the failure, changes no
state and fires no callback; because the state is unchanged, subsequent valid
messages for the topic are processed exactly as they would have been. -/
theorem c7_decrypt_failure_safe (c : Crypto) (st : State) (topic : String) (kp : KeyPair)
    (payload : String)
    (h : ((c.atob payload).bind
        fun bytes => c.decrypt bytes (objGet? st.topicToSharedSecret topic) topic) = none) :
    listener c st topic kp (.encryptedMessage payload) = (st, []) := by
  cases ha : c.atob payload with
  | none => simp [listener, ha]
  | some bytes =>
    have hd : c.decrypt bytes (objGet? st.topicToSharedSecret topic) topic = none := by
      simpa [ha] using h
    simp [listener, ha, hd]

theorem c7_decrypt_failure_safe_witness :
    listener cryptoFix (mkState "d") "t" kpA (.encryptedMessage "corrupted") = (mkState "d", []) :=
  c7_decrypt_failure_safe cryptoFix (mkState "d") "t" kpA "corrupted" rfl

/-- C1 (code bug, acknowledged by spec §9): callback `7` is registered
through session `a`'s descriptor, yet delivering a handshake addressed to
session `b`'s topic fires it, because the callback registries are fields of
the instance shared by all sessions rather than per-session state. -/
theorem c1_cross_session_callback :
    ("a" : String) ≠ "b"
      ∧ stC1.qrCodeScannedCallbacks = [7]
      ∧ (deliver cryptoFix stC1 "b" (.handshake "p1")).2 = [Event.qrCodeScanned 7] :=
  ⟨by decide, rfl, rfl⟩

/-- C3: once `cancelRequest(topic)` has completed (without throwing),
delivering any subsequent inbound message for that topic — handshake or
encryptedMessage — leaves the state unchanged and fires no callback:
`cancelRequest` removed the topic's client, so the transport drops the
message. -/
theorem c3_drop_after_cancel (c : Crypto) (st st' : State) (topic : String) (msg : Msg)
    (h : cancelRequest st topic = some st') :
    deliver c st' topic msg = (st', []) := by
  have hws : objGet? st'.topicToWebSocketClient topic = none := by
    cases hc : objGet? st.topicToWebSocketClient topic with
    | none => simp [cancelRequest, hc] at h
    | some ws =>
      simp only [cancelRequest, hc] at h
      obtain rfl := Option.some.inj h
      exact objGet_objDelete_self _ _
  simp [deliver, hws]

theorem c3_drop_after_cancel_witness :
    deliver cryptoFix stC10post "a" (.handshake "zz") = (stC10post, []) :=
  c3_drop_after_cancel cryptoFix stC10 stC10post "a" (.handshake "zz") (by rfl)

/-- Every builder predicate application routes through one of the three write
helpers, all of which write `kindKey`/`storedValue` into the key's entry by
the same spread-and-assign shape. -/
theorem predApp_apply_eq (p : PredApp) (key topic : String) (m : ConfigMap) :
    p.apply key topic m =
      match objGet? m topic with
      | none => none
      | some cfg =>
        some (objSet m topic
          (objSet cfg key (objSet ((objGet? cfg key).getD []) p.kindKey p.storedValue))) := by
  cases p <;> rfl

/-- C9: applying the same predicate kind twice on the same credential key
with values `v₁` then `v₂` leaves that kind mapped to `v₂` only (the spread
`\x7b ...old, [fnName]: value \x7d` overwrites the field), while any other
predicate kind `f` already recorded on that key keeps the value it had before
both calls. -/
theorem c9_last_write_wins (m : ConfigMap) (topic key f : String) (p₁ p₂ : PredApp)
    (cfg : Config) (hk : p₁.kindKey = p₂.kindKey) (hc : objGet? m topic = some cfg)
    (hf : f ≠ p₂.kindKey) :
    entryFieldO ((p₁.apply key topic m).bind (p₂.apply key topic)) topic key p₂.kindKey
        = some p₂.storedValue
      ∧ entryFieldO ((p₁.apply key topic m).bind (p₂.apply key topic)) topic key f
        = entryField m topic key f := by
  have hset : objSet (objSet ((objGet? cfg key).getD []) p₁.kindKey p₁.storedValue)
        p₂.kindKey p₂.storedValue
      = objSet ((objGet? cfg key).getD []) p₂.kindKey p₂.storedValue := by
    rw [hk]; exact objSet_objSet_same _ _ _ _
  have h₁ : p₁.apply key topic m =
      some (objSet m topic (objSet cfg key
        (objSet ((objGet? cfg key).getD []) p₁.kindKey p₁.storedValue))) := by
    rw [predApp_apply_eq p₁, hc]
  have h₂ : objGet? (objSet m topic (objSet cfg key
      (objSet ((objGet? cfg key).getD []) p₁.kindKey p₁.storedValue))) topic
      = some (objSet cfg key
        (objSet ((objGet? cfg key).getD []) p₁.kindKey p₁.storedValue)) :=
    objGet_objSet_self _ _ _
  have h₃ : objGet? (objSet cfg key
      (objSet ((objGet? cfg key).getD []) p₁.kindKey p₁.storedValue)) key
      = some (objSet ((objGet? cfg key).getD []) p₁.kindKey p₁.storedValue) :=
    objGet_objSet_self _ _ _
  rw [h₁]
  simp only [Option.some_bind, predApp_apply_eq p₂, h₂, h₃, Option.getD_some, hset]
  constructor
  · simp [entryFieldO, entryField, objGet_objSet_self]
  · simp only [entryFieldO, entryField, objGet_objSet_self, hc]
    rw [objGet_objSet_ne _ _ _ _ hf]
    cases hck : objGet? cfg key with
    | none => simp [objGet?]
    | some e => simp

theorem c9_last_write_wins_witness :
    entryFieldO (((PredApp.gteP (.num 18)).apply "age" "t" [("t", [])]).bind
        ((PredApp.gteP (.num 21)).apply "age" "t")) "t" "age" (PredApp.gteP (.num 21)).kindKey
        = some (PredApp.gteP (.num 21)).storedValue
      ∧ entryFieldO (((PredApp.gteP (.num 18)).apply "age" "t" [("t", [])]).bind
          ((PredApp.gteP (.num 21)).apply "age" "t")) "t" "age" "lt"
        = entryField [("t", [])] "t" "age" "lt" :=
  c9_last_write_wins [("t", [])] "t" "age" "lt" (.gteP (.num 18)) (.gteP (.num 21)) []
    rfl rfl (by decide)

/-- C10: for a registered topic, `cancelRequest` deletes the key pair,
config, WebSocket client and shared secret of that topic only (any other
topic's entries are untouched), resets the `qrCodeScanned`,
`onGeneratingProof`, `onProofGenerated` and `onError` registries to empty —
dropping every session's callbacks — and leaves `onRejectCallbacks` as it
was. -/
theorem c10_cancel_frame (st st' : State) (topic t' : String)
    (h : cancelRequest st topic = some st') (hne : t' ≠ topic) :
    objGet? st'.topicToKeyPair topic = none
      ∧ objGet? st'.topicToConfig topic = none
      ∧ objGet? st'.topicToWebSocketClient topic = none
      ∧ objGet? st'.topicToSharedSecret topic = none
      ∧ objGet? st'.topicToKeyPair t' = objGet? st.topicToKeyPair t'
      ∧ objGet? st'.topicToConfig t' = objGet? st.topicToConfig t'
      ∧ objGet? st'.topicToWebSocketClient t' = objGet? st.topicToWebSocketClient t'
      ∧ objGet? st'.topicToSharedSecret t' = objGet? st.topicToSharedSecret t'
      ∧ st'.qrCodeScannedCallbacks = []
      ∧ st'.onGeneratingProofCallbacks = []
      ∧ st'.onProofGeneratedCallbacks = []
      ∧ st'.onErrorCallbacks = []
      ∧ st'.onRejectCallbacks = st.onRejectCallbacks := by
  cases hc : objGet? st.topicToWebSocketClient topic with
  | none => simp [cancelRequest, hc] at h
  | some ws =>
    simp only [cancelRequest, hc] at h
    obtain rfl := Option.some.inj h
    exact ⟨objGet_objDelete_self _ _, objGet_objDelete_self _ _, objGet_objDelete_self _ _,
      objGet_objDelete_self _ _, objGet_objDelete_ne _ _ _ hne, objGet_objDelete_ne _ _ _ hne,
      objGet_objDelete_ne _ _ _ hne, objGet_objDelete_ne _ _ _ hne, rfl, rfl, rfl, rfl, rfl⟩

theorem c10_cancel_frame_witness :
    objGet? stC10post.topicToKeyPair "a" = none
      ∧ objGet? stC10post.topicToConfig "a" = none
      ∧ objGet? stC10post.topicToWebSocketClient "a" = none
      ∧ objGet? stC10post.topicToSharedSecret "a" = none
      ∧ objGet? stC10post.topicToKeyPair "b" = objGet? stC10.topicToKeyPair "b"
      ∧ objGet? stC10post.topicToConfig "b" = objGet? stC10.topicToConfig "b"
      ∧ objGet? stC10post.topicToWebSocketClient "b" = objGet? stC10.topicToWebSocketClient "b"
      ∧ objGet? stC10post.topicToSharedSecret "b" = objGet? stC10.topicToSharedSecret "b"
      ∧ stC10post.qrCodeScannedCallbacks = []
      ∧ stC10post.onGeneratingProofCallbacks = []
      ∧ stC10post.onProofGeneratedCallbacks = []
      ∧ stC10post.onErrorCallbacks = []
      ∧ stC10post.onRejectCallbacks = stC10.onRejectCallbacks :=
  c10_cancel_frame stC10 stC10post "a" "b" (by rfl) (by decide)


end ZkPassport
